import Mathlib

/-!
# Verification of the fraud-detection transaction-review orchestrator

Shallow embedding of `src/main.py`: the orchestrator `process_transaction`,
the interactive review session `interactive_fraud_manager_session`, the
termination predicate of the `Fraud_Manager` user proxy, the verdict-extraction
scan over chat histories, and the three registered lookup tools.

The language-model collaborators (ML scorer, rule scorer, coordinator,
decision agent, explanation agent, dialogue agent) are external: the embedding
takes their reply contents as inputs, with `json.loads` modelled as producing
an optional parsed `Json` value (`none` = the reply was not valid JSON).
-/

namespace FraudDetection

/-- A bank transaction, mirroring the `Transaction` TypedDict of the source. -/
structure Transaction where
  transaction_id : String
  sender_account : String
  receiver_account : String
  amount : Rat
  timestamp : String
  description : Option String
  is_realtime : Bool
deriving Repr, DecidableEq

/-- Parsed JSON values: what `json.loads` yields on a collaborator reply. -/
inductive Json where
  | null : Json
  | bool (b : Bool) : Json
  | num (q : Rat) : Json
  | str (s : String) : Json
  | arr (elems : List Json) : Json
  | obj (fields : List (String × Json)) : Json

/-- First-match lookup in the field list of a parsed JSON object (a dict built
by `json.loads` has unique keys, where this agrees with Python dict access). -/
def lookupField : List (String × Json) → String → Option Json
  | [], _ => none
  | (k, v) :: rest, key => if k = key then some v else lookupField rest key

/-- Subscript access `d[key]` on a parsed JSON value; `none` models the
`KeyError` (or `TypeError` on a non-dict) Python raises. -/
def Json.lookup : Json → String → Option Json
  | Json.obj fields, key => lookupField fields key
  | _, _ => none

/-- One entry of an autogen chat history; `content` is `none` when the message
carries no usable content (`message.get` then yields the default `""`). -/
structure Message where
  name : String
  content : Option String
deriving Repr, DecidableEq

/-- Drop leading whitespace characters. -/
def dropLeadingBlanks : List Char → List Char
  | [] => []
  | c :: cs => if c.isWhitespace then dropLeadingBlanks cs else c :: cs

/-- The Python `str.strip()`: remove whitespace from both ends. -/
def py_strip (s : String) : String :=
  String.mk (dropLeadingBlanks ((dropLeadingBlanks s.data.reverse).reverse))

/-- The Python `str.upper()` (the contents scanned for control keywords are
ASCII, where `Char.toUpper` agrees with Python's upper-casing). -/
def py_upper (s : String) : String :=
  String.mk (s.data.map Char.toUpper)

/-- `startsWithChars pat s` holds when `pat` is a leading segment of `s`. -/
def startsWithChars : List Char → List Char → Bool
  | [], _ => true
  | _ :: _, [] => false
  | a :: pat, b :: s => a == b && startsWithChars pat s

/-- `containsChars pat s` holds when `pat` occurs contiguously inside `s`. -/
def containsChars (pat : List Char) : List Char → Bool
  | [] => startsWithChars pat []
  | b :: s => startsWithChars pat (b :: s) || containsChars pat s

/-- The Python substring test `pat in s`. -/
def str_contains (s pat : String) : Bool :=
  containsChars pat.data s.data

/-- The `is_termination_msg` lambda installed on the `Fraud_Manager` user
proxy (source lines 334-335): a message whose non-empty content, upper-cased,
contains one of the commands BEENDEN, TERMINATE, EXIT ends the chat. -/
def is_termination_msg (m : Message) : Bool :=
  let content := m.content.getD ""
  content != "" &&
    (["BEENDEN", "TERMINATE", "EXIT"].any fun cmd => str_contains (py_upper content) cmd)

/-- The verdict-extraction loop of the source (lines 541-549 and 667-675):
scan the chat history from its first entry and stop at the first message whose
upper-cased content contains GENEHMIGEN (then `"approved"`) or, failing that
within the same message, ABLEHNEN (then `"declined"`); when no message
matches, the decision stays `"undecided"`. -/
def extract_final_decision : List Message → String
  | [] => "undecided"
  | m :: rest =>
    if str_contains (py_upper (m.content.getD "")) "GENEHMIGEN" then "approved"
    else if str_contains (py_upper (m.content.getD "")) "ABLEHNEN" then "declined"
    else extract_final_decision rest

/-- Exceptions that can escape the orchestrator: `json.loads` failures on a
collaborator reply, and missing dictionary keys. -/
inductive PyError where
  | jsonDecodeError (origin : String)
  | keyError (key : String)
deriving Repr, DecidableEq

/-- The collaborator replies `process_transaction` consumes: the last message
content of each collaborator chat, with `json.loads` already applied where the
source applies it (`none` = that content was not valid JSON), plus the full
chat history of the interactive review chat with the ReAct agent. -/
structure CollaboratorOutputs where
  ml_content : Option Json
  rule_content : Option Json
  coordinator_content : String
  decision_content : Option Json
  explanation_content : String
  review_history : List Message

/-- The result dictionary of `process_transaction`. A `none` in an `Option`
field means the corresponding key is absent from the returned dict, while
`some Json.null` is a key present with value `None`. -/
structure ProcessResult where
  transaction : Transaction
  ml_assessment : Json
  rule_assessment : Json
  final_decision : Option Json
  explanation : Option Json
  error : Option String
  process_complete : Bool

/-- `FraudDetectionSystem.process_transaction` (source lines 354-568): parse
both assessment replies, strip the coordinator reply and branch on it being
`approve_transaction`, `decision_agent` or `generate_explanation` (anything
else hits the fallback, which returns an error-carrying dict), building the
result dict of the chosen branch; `json.loads` failures and missing keys are
unhandled in the source and escape here as `Except.error`. -/
def process_transaction (o : CollaboratorOutputs) (t : Transaction) :
    Except PyError ProcessResult :=
  match o.ml_content with
  | none => Except.error (PyError.jsonDecodeError "ml_assessment_agent")
  | some ml =>
    match o.rule_content with
    | none => Except.error (PyError.jsonDecodeError "rule_assessment_agent")
    | some rule =>
      let next_step := py_strip o.coordinator_content
      if next_step = "approve_transaction" then
        Except.ok
          { transaction := t, ml_assessment := ml, rule_assessment := rule,
            final_decision := some (Json.str "approved"), explanation := some Json.null,
            error := none, process_complete := true }
      else if next_step = "decision_agent" then
        match o.decision_content with
        | none => Except.error (PyError.jsonDecodeError "decision_agent")
        | some decision =>
          match decision.lookup "decision" with
          | none => Except.error (PyError.keyError "decision")
          | some dec =>
            match decision.lookup "reasoning" with
            | none => Except.error (PyError.keyError "reasoning")
            | some reasoning =>
              Except.ok
                { transaction := t, ml_assessment := ml, rule_assessment := rule,
                  final_decision := some dec, explanation := some reasoning,
                  error := none, process_complete := true }
      else if next_step = "generate_explanation" then
        Except.ok
          { transaction := t, ml_assessment := ml, rule_assessment := rule,
            final_decision := some (Json.str (extract_final_decision o.review_history)),
            explanation := some (Json.str o.explanation_content),
            error := none,
            process_complete := extract_final_decision o.review_history != "undecided" }
      else
        Except.ok
          { transaction := t, ml_assessment := ml, rule_assessment := rule,
            final_decision := none, explanation := none,
            error := some ("Unerwartete Koordinator-Antwort: " ++ next_step),
            process_complete := false }

/-- The collaborator replies `interactive_fraud_manager_session` consumes. -/
structure SessionOutputs where
  ml_content : Option Json
  rule_content : Option Json
  explanation_content : String
  fraud_manager_history : List Message

/-- `FraudDetectionSystem.interactive_fraud_manager_session` (source lines
570-677): parse both assessment replies, generate the explanation (consumed
only into the framing prompt), run the interactive chat, and extract the
fraud manager's decision from the chat history by the scan above. -/
def interactive_fraud_manager_session (o : SessionOutputs) (t : Transaction) :
    Except PyError String :=
  match o.ml_content with
  | none => Except.error (PyError.jsonDecodeError "ml_assessment_agent")
  | some _ =>
    match o.rule_content with
    | none => Except.error (PyError.jsonDecodeError "rule_assessment_agent")
    | some _ =>
      Except.ok (extract_final_decision o.fraud_manager_history)

/-- Modelled from the spec: the routing rule the coordinator collaborator is
instructed to apply (spec section 4.2, and the prompt at source lines 406-411).
The coordinator itself is an external language model, so this rule exists only
as prompt text, not as repository code: no suspicion approves, suspicion on a
realtime transfer goes to the decision agent, other suspicion to explanation. -/
def route (t : Transaction) (ml_is_fraud rule_is_flagged : Bool) : String :=
  if ml_is_fraud == false && rule_is_flagged == false then "approve_transaction"
  else if t.is_realtime then "decision_agent"
  else "generate_explanation"

/-- Modelled from the spec: well-formedness of an MLAssessment (spec section 3:
probability and threshold in the unit interval, `is_fraud` consistent with
`probability >= threshold`). The source performs no such validation; this
predicate only serves to exhibit a malformed assessment. -/
def spec_ml_well_formed (j : Json) : Bool :=
  match j.lookup "probability", j.lookup "threshold", j.lookup "is_fraud" with
  | some (Json.num p), some (Json.num th), some (Json.bool f) =>
    decide (0 ≤ p) && decide (p ≤ 1) && decide (0 ≤ th) && decide (th ≤ 1) &&
      (f == decide (th ≤ p))
  | _, _, _ => false

/-- `get_user_transaction_history` (source lines 174-200): returns the fixed
simulated data, modelled as the parsed JSON value whose dump the Python
returns; the `account_id` argument is accepted but never used by the body. -/
def get_user_transaction_history (account_id : String) : Json :=
  Json.arr [
    Json.obj [("transaction_id", Json.str "t123456"),
      ("amount", Json.num 1250),
      ("timestamp", Json.str "2023-12-01T15:30:00Z"),
      ("receiver_account", Json.str "DE89370400440532013000"),
      ("description", Json.str "Monatsmiete Dezember")],
    Json.obj [("transaction_id", Json.str "t123457"),
      ("amount", Json.num 89.99),
      ("timestamp", Json.str "2023-12-03T10:15:00Z"),
      ("receiver_account", Json.str "DE12500105170648489890"),
      ("description", Json.str "Online-Einkauf Elektronik")],
    Json.obj [("transaction_id", Json.str "t123458"),
      ("amount", Json.num 50),
      ("timestamp", Json.str "2023-12-05T09:20:00Z"),
      ("receiver_account", Json.str "DE13600501017832594242"),
      ("description", Json.str "Überweisung an Freund")]]

/-- `get_user_profile` (source lines 202-216): returns the simulated profile,
with the queried `account_id` echoed into the payload. -/
def get_user_profile (account_id : String) : Json :=
  Json.obj [("account_id", Json.str account_id),
    ("account_age_days", Json.num 730),
    ("account_type", Json.str "private"),
    ("risk_score", Json.num 0.15),
    ("average_transaction_amount", Json.num 450.75),
    ("transaction_frequency", Json.num 12.5),
    ("previous_flags", Json.num 1),
    ("typical_countries", Json.arr [Json.str "DE", Json.str "FR", Json.str "ES"]),
    ("typical_receivers", Json.arr [Json.str "DE89370400440532013000",
      Json.str "DE12500105170648489890"])]

/-- `get_similar_fraud_cases` (source lines 218-244): returns the fixed
simulated case list; the `case_features` argument is accepted but unused. -/
def get_similar_fraud_cases (case_features : String) : Json :=
  Json.arr [
    Json.obj [("case_id", Json.str "f987654"),
      ("similarity_score", Json.num 0.85),
      ("features", Json.obj [("amount_unusually_high", Json.bool true),
        ("new_receiver", Json.bool true), ("unusual_time", Json.bool true)]),
      ("outcome", Json.str "confirmed_fraud")],
    Json.obj [("case_id", Json.str "f987655"),
      ("similarity_score", Json.num 0.78),
      ("features", Json.obj [("amount_unusually_high", Json.bool true),
        ("new_receiver", Json.bool false), ("unusual_time", Json.bool true)]),
      ("outcome", Json.str "false_positive")]]

/-- The chat state visible to a registered tool at execution time. The tool
closures of the source capture no mutable state; the pass-through registry
below makes that explicit. -/
structure ReviewSessionState where
  transcript : List Message
deriving Repr, DecidableEq

/-- The names registered for tool execution on the `Fraud_Manager` proxy. -/
inductive ToolName where
  | get_user_transaction_history
  | get_user_profile
  | get_similar_fraud_cases
deriving Repr, DecidableEq

/-- A tool invocation request, as in the ReAct agent's tool declarations. -/
structure ToolCall where
  tool_name : ToolName
  argument : String
deriving Repr, DecidableEq

/-- Dispatch of one tool call through the implementations registered with
`register_for_execution` (source lines 339-352). The session state is
returned unchanged because each registered lookup is a pure function of its
argument. -/
def invoke_tool (st : ReviewSessionState) (c : ToolCall) : ReviewSessionState × Json :=
  match c.tool_name with
  | ToolName.get_user_transaction_history => (st, get_user_transaction_history c.argument)
  | ToolName.get_user_profile => (st, get_user_profile c.argument)
  | ToolName.get_similar_fraud_cases => (st, get_similar_fraud_cases c.argument)

/-- The realtime example transaction of the source's main menu (option 1). -/
def example_transaction_realtime : Transaction :=
  { transaction_id := "tx98765", sender_account := "DE55500105173984217489",
    receiver_account := "FR7630006000011234567890189", amount := 2500,
    timestamp := "2023-12-15T22:45:00Z", description := some "Dringende Zahlung",
    is_realtime := true }

/-- The manual-review example transaction of the source's main menu (option 2). -/
def example_transaction_manual : Transaction :=
  { transaction_id := "tx98766", sender_account := "DE55500105173984217489",
    receiver_account := "FR7630006000011234567890189", amount := 2500,
    timestamp := "2023-12-15T22:45:00Z", description := some "Dringende Zahlung",
    is_realtime := false }

/-- A well-formed ML reply with `is_fraud = false`. -/
def benign_ml : Json :=
  Json.obj [("probability", Json.num 0.1), ("threshold", Json.num 0.5),
    ("is_fraud", Json.bool false), ("features", Json.obj []),
    ("model_version", Json.str "fraud-detection-v3.2")]

/-- A well-formed rule reply with `is_flagged = false`. -/
def benign_rule : Json :=
  Json.obj [("is_flagged", Json.bool false), ("rules_triggered", Json.arr []),
    ("version", Json.str "rule-engine-v2.1")]

/-- A well-formed ML reply with `is_fraud = true`. -/
def suspicious_ml : Json :=
  Json.obj [("probability", Json.num 0.75), ("threshold", Json.num 0.5),
    ("is_fraud", Json.bool true), ("features", Json.obj []),
    ("model_version", Json.str "fraud-detection-v3.2")]

/-- A well-formed rule reply with `is_flagged = true`. -/
def flagged_rule : Json :=
  Json.obj [("is_flagged", Json.bool true),
    ("rules_triggered", Json.arr [Json.str "large_amount", Json.str "realtime_transfer"]),
    ("version", Json.str "rule-engine-v2.1")]

/-- A syntactically valid but malformed ML reply: probability 1.2 lies outside
the unit interval. -/
def malformed_ml : Json :=
  Json.obj [("probability", Json.num 1.2), ("threshold", Json.num 0.5),
    ("is_fraud", Json.bool true), ("features", Json.obj []),
    ("model_version", Json.str "fraud-detection-v3.2")]

/-- A decision reply with the enumerated outcome `declined`. -/
def declined_decision : Json :=
  Json.obj [("decision", Json.str "declined"), ("confidence", Json.num 0.9),
    ("reasoning", Json.str "Risiko zu hoch")]

/-- A decision reply whose outcome `press` lies outside the enumerated set. -/
def weird_decision : Json :=
  Json.obj [("decision", Json.str "press"), ("confidence", Json.num 0.5),
    ("reasoning", Json.str "unklar")]

/-- A fraud-manager message containing a decline keyword and a termination
keyword but no approve keyword. -/
def decline_terminate_msg : Message :=
  { name := "Fraud_Manager", content := some "Ich muss diese Transaktion ABLEHNEN. BEENDEN." }

/-- The tail of the initial framing message both review entry points send:
it quotes the control keywords when telling the reviewer how to answer. -/
def framing_msg : Message :=
  { name := "Fraud_Manager",
    content := some "Wenn Sie bereit sind zu entscheiden, geben Sie \"GENEHMIGEN\" oder \"ABLEHNEN\" ein." }

/-- The latest human-authored message: a plain decline. -/
def decline_reply_msg : Message :=
  { name := "Fraud_Manager", content := some "ABLEHNEN" }

/-- Collaborator replies for a benign assessment routed to approval. -/
def outputs_c1 : CollaboratorOutputs :=
  { ml_content := some benign_ml, rule_content := some benign_rule,
    coordinator_content := "approve_transaction", decision_content := none,
    explanation_content := "", review_history := [] }

/-- Collaborator replies whose review chat starts with the framing message and
ends with the human decline reply. -/
def outputs_c3 : CollaboratorOutputs :=
  { ml_content := some suspicious_ml, rule_content := some flagged_rule,
    coordinator_content := "generate_explanation", decision_content := none,
    explanation_content := "Die Transaktion erscheint verdaechtig.",
    review_history := [framing_msg, decline_reply_msg] }

/-- Collaborator replies with a malformed ML assessment routed to the
decision agent. -/
def outputs_c4 : CollaboratorOutputs :=
  { ml_content := some malformed_ml, rule_content := some flagged_rule,
    coordinator_content := "decision_agent", decision_content := some declined_decision,
    explanation_content := "", review_history := [] }

/-- Collaborator replies whose decision outcome lies outside the enumerated
set. -/
def outputs_c5 : CollaboratorOutputs :=
  { ml_content := some suspicious_ml, rule_content := some flagged_rule,
    coordinator_content := "decision_agent", decision_content := some weird_decision,
    explanation_content := "", review_history := [] }

/-- Collaborator replies whose ML reply is not valid JSON. -/
def outputs_c6 : CollaboratorOutputs :=
  { ml_content := none, rule_content := some flagged_rule,
    coordinator_content := "decision_agent", decision_content := some declined_decision,
    explanation_content := "", review_history := [] }

/-- Collaborator replies for a fallback-branch run: the coordinator answers
with an unexpected command. -/
def outputs_c6a : CollaboratorOutputs :=
  { ml_content := some suspicious_ml, rule_content := some flagged_rule,
    coordinator_content := "foo", decision_content := none,
    explanation_content := "", review_history := [] }

/-- Collaborator replies routed to the explanation branch whose review chat
never produces a verdict keyword. -/
def outputs_c7 : CollaboratorOutputs :=
  { ml_content := some suspicious_ml, rule_content := some flagged_rule,
    coordinator_content := "generate_explanation", decision_content := none,
    explanation_content := "Die Transaktion erscheint verdaechtig.",
    review_history := [{ name := "Fraud_Manager", content := some "Zeige mir das Nutzerprofil." }] }

/-- The result of running `process_transaction` on `outputs_c7`: the review
chat produced no verdict keyword, so the run stays undecided and incomplete. -/
def result_c7 : ProcessResult :=
  { transaction := example_transaction_manual, ml_assessment := suspicious_ml,
    rule_assessment := flagged_rule, final_decision := some (Json.str "undecided"),
    explanation := some (Json.str "Die Transaktion erscheint verdaechtig."),
    error := none, process_complete := false }

/-- Session replies whose interactive chat history is the single message
holding both a decline and a termination keyword. -/
def session_outputs_c2 : SessionOutputs :=
  { ml_content := some suspicious_ml, rule_content := some flagged_rule,
    explanation_content := "Die Transaktion erscheint verdaechtig.",
    fraud_manager_history := [decline_terminate_msg] }

/-- Session replies whose interactive chat history holds no verdict keyword:
the session ends without a verdict. -/
def session_outputs_c10 : SessionOutputs :=
  { ml_content := some suspicious_ml, rule_content := some flagged_rule,
    explanation_content := "Die Transaktion erscheint verdaechtig.",
    fraud_manager_history := [{ name := "Fraud_Manager", content := some "BEENDEN" }] }

/-- The verdict-extraction scan can only produce the three decision strings. -/
theorem extract_final_decision_mem (ms : List Message) :
    extract_final_decision ms = "approved" ∨ extract_final_decision ms = "declined" ∨
      extract_final_decision ms = "undecided" := by
  induction ms with
  | nil => right; right; rfl
  | cons m rest ih =>
    by_cases h1 : str_contains (py_upper (m.content.getD "")) "GENEHMIGEN" = true
    · left; simp [extract_final_decision, h1]
    · by_cases h2 : str_contains (py_upper (m.content.getD "")) "ABLEHNEN" = true
      · right; left
        simp [extract_final_decision, h1, h2]
      · simpa [extract_final_decision, h1, h2] using ih

/-- C8: read-only lookups are idempotent and side-effect-free: invoking the
`get_user_profile` tool twice for the same account from the same session state
yields the very same payload both times, and the session state is unchanged by
the first invocation. -/
theorem C8_get_user_profile_idempotent (st : ReviewSessionState) (account_id : String) :
    invoke_tool (invoke_tool st ⟨ToolName.get_user_profile, account_id⟩).1
        ⟨ToolName.get_user_profile, account_id⟩ =
      invoke_tool st ⟨ToolName.get_user_profile, account_id⟩ ∧
    (invoke_tool st ⟨ToolName.get_user_profile, account_id⟩).1 = st :=
  ⟨rfl, rfl⟩

/-- C9: the transaction-history tool ignores its `account_id` argument: any two
account ids produce the same payload. -/
theorem C9_history_independent_of_account (a b : String) :
    get_user_transaction_history a = get_user_transaction_history b :=
  rfl

/-- C10: whenever `interactive_fraud_manager_session` returns a decision, it is
one of the three strings approved, declined, undecided; in particular a chat
that ended without a verdict keyword yields undecided. -/
theorem C10_session_returns_only_three_verdicts
    (o : SessionOutputs) (t : Transaction) (d : String)
    (h : interactive_fraud_manager_session o t = Except.ok d) :
    d = "approved" ∨ d = "declined" ∨ d = "undecided" := by
  unfold interactive_fraud_manager_session at h
  cases hml : o.ml_content with
  | none => rw [hml] at h; exact absurd h (by simp)
  | some ml =>
    cases hrule : o.rule_content with
    | none => rw [hml, hrule] at h; exact absurd h (by simp)
    | some rule =>
      rw [hml, hrule] at h
      simp only [Except.ok.injEq] at h
      rw [← h]
      exact extract_final_decision_mem o.fraud_manager_history

/-- Witness for C10: a session terminated by BEENDEN without a verdict keyword
returns `"undecided"`, which lies in the enumerated set. -/
theorem C10_witness :
    "undecided" = "approved" ∨ "undecided" = "declined" ∨ "undecided" = "undecided" :=
  C10_session_returns_only_three_verdicts session_outputs_c10 example_transaction_manual
    "undecided" rfl

/-- C2 fails on the code: the message of `session_outputs_c2` contains both the
decline keyword ABLEHNEN and the termination keyword BEENDEN, the termination
predicate fires on it, and yet the session resolves to `"declined"`, because
the verdict extraction checks only GENEHMIGEN and then ABLEHNEN and never
consults the termination keywords. -/
theorem C2_counterexample :
    is_termination_msg decline_terminate_msg = true ∧
    interactive_fraud_manager_session session_outputs_c2 example_transaction_manual =
      Except.ok "declined" := by
  constructor
  · decide
  · rfl

/-- C2 amended: a message that contains a decline keyword and no approve
keyword resolves the scan to `"declined"` even when it also contains a
termination keyword; within one message the priority is approve before
decline, and termination keywords play no part in the verdict. -/
theorem C2_amended_decline_overrides_termination
    (m : Message) (rest : List Message) (c : String)
    (hc : m.content = some c)
    (happ : str_contains (py_upper c) "GENEHMIGEN" = false)
    (hdec : str_contains (py_upper c) "ABLEHNEN" = true)
    (hterm : is_termination_msg m = true) :
    extract_final_decision (m :: rest) = "declined" := by
  simp [extract_final_decision, hc, happ, hdec]

/-- Witness for C2 amended at the concrete decline-and-terminate message. -/
theorem C2_witness :
    extract_final_decision [decline_terminate_msg] = "declined" :=
  C2_amended_decline_overrides_termination decline_terminate_msg []
    "Ich muss diese Transaktion ABLEHNEN. BEENDEN." rfl (by decide) (by decide) (by decide)

/-- C3 names a latent bug the spec itself flags (design note, section 9): the
verdict scan walks the whole transcript from the first message, so the quoted
GENEHMIGEN inside the initial framing message decides the verdict and the
latest human-authored reply ABLEHNEN is never reached: the full run reports
approved although a scan of the latest human message alone gives declined. -/
theorem C3_framing_message_decides_verdict :
    process_transaction outputs_c3 example_transaction_manual =
      Except.ok
        { transaction := example_transaction_manual, ml_assessment := suspicious_ml,
          rule_assessment := flagged_rule,
          final_decision := some (Json.str "approved"),
          explanation := some (Json.str "Die Transaktion erscheint verdaechtig."),
          error := none, process_complete := true } ∧
    extract_final_decision [decline_reply_msg] = "declined" := by
  constructor
  · rfl
  · decide

/-- C1: when the ML assessment reports `is_fraud = false` and the rule
assessment reports `is_flagged = false` and the coordinator collaborator
follows its routing instruction (spec-modelled by `route`, which then answers
`approve_transaction` whatever `is_realtime` is), `process_transaction`
returns `final_decision = "approved"`, `explanation = null` and
`process_complete = true`, for every transaction. -/
theorem C1_no_suspicion_always_approved
    (o : CollaboratorOutputs) (t : Transaction) (ml rule : Json)
    (hml : o.ml_content = some ml) (hrule : o.rule_content = some rule)
    (hfraud : ml.lookup "is_fraud" = some (Json.bool false))
    (hflag : rule.lookup "is_flagged" = some (Json.bool false))
    (hcoord : py_strip o.coordinator_content = route t false false) :
    process_transaction o t = Except.ok
      { transaction := t, ml_assessment := ml, rule_assessment := rule,
        final_decision := some (Json.str "approved"), explanation := some Json.null,
        error := none, process_complete := true } := by
  have hr : route t false false = "approve_transaction" := rfl
  rw [hr] at hcoord
  unfold process_transaction
  rw [hml, hrule]
  simp [hcoord]

/-- Witness for C1: the benign run on the realtime example transaction. -/
theorem C1_witness :
    process_transaction outputs_c1 example_transaction_realtime = Except.ok
      { transaction := example_transaction_realtime, ml_assessment := benign_ml,
        rule_assessment := benign_rule, final_decision := some (Json.str "approved"),
        explanation := some Json.null, error := none, process_complete := true } :=
  C1_no_suspicion_always_approved outputs_c1 example_transaction_realtime benign_ml benign_rule
    rfl rfl rfl rfl rfl

/-- C4 fails on the code: `malformed_ml` violates the MLAssessment
well-formedness of the spec (probability 1.2), yet `process_transaction`
does not fail at all: no `AssessmentSchemaError` exists in the source, the
run succeeds, and the decision stage output reaches the result, showing that
stage was invoked. -/
theorem C4_counterexample :
    spec_ml_well_formed malformed_ml = false ∧
    process_transaction outputs_c4 example_transaction_realtime = Except.ok
      { transaction := example_transaction_realtime, ml_assessment := malformed_ml,
        rule_assessment := flagged_rule, final_decision := some (Json.str "declined"),
        explanation := some (Json.str "Risiko zu hoch"), error := none,
        process_complete := true } := by
  constructor
  · simp [spec_ml_well_formed, Json.lookup, lookupField, malformed_ml]
    norm_num
  · rfl

/-- C4 amended: the orchestrator applies no schema validation to assessments:
any JSON-parseable ML reply, malformed included, flows through unchanged, the
pipeline proceeds to the coordinator-chosen stage, and the decision verdict
reaches the result; only a syntactically invalid JSON reply fails, and that
failure is an uncaught exception, not an `AssessmentSchemaError`. -/
theorem C4_amended_malformed_assessment_flows_through
    (o : CollaboratorOutputs) (t : Transaction) (ml rule decision dec reasoning : Json)
    (hml : o.ml_content = some ml) (hmal : spec_ml_well_formed ml = false)
    (hrule : o.rule_content = some rule)
    (hcoord : py_strip o.coordinator_content = "decision_agent")
    (hd : o.decision_content = some decision)
    (hdec : decision.lookup "decision" = some dec)
    (hreas : decision.lookup "reasoning" = some reasoning) :
    process_transaction o t = Except.ok
      { transaction := t, ml_assessment := ml, rule_assessment := rule,
        final_decision := some dec, explanation := some reasoning,
        error := none, process_complete := true } := by
  unfold process_transaction
  rw [hml, hrule]
  simp [hcoord, hd, hdec, hreas]

/-- Witness for C4 amended at the malformed assessment. -/
theorem C4_witness :
    process_transaction outputs_c4 example_transaction_realtime = Except.ok
      { transaction := example_transaction_realtime, ml_assessment := malformed_ml,
        rule_assessment := flagged_rule, final_decision := some (Json.str "declined"),
        explanation := some (Json.str "Risiko zu hoch"), error := none,
        process_complete := true } :=
  C4_amended_malformed_assessment_flows_through outputs_c4 example_transaction_realtime
    malformed_ml flagged_rule declined_decision (Json.str "declined") (Json.str "Risiko zu hoch")
    rfl (by simp [spec_ml_well_formed, Json.lookup, lookupField, malformed_ml]; norm_num)
    rfl rfl rfl rfl rfl

/-- C5 fails on the code: the decision reply `weird_decision` carries the
outcome `press`, which lies outside the enumerated set, yet no
`DecisionParseError` is raised: the run succeeds and `press` is propagated as
the final decision with `process_complete = true`. -/
theorem C5_counterexample :
    Json.str "press" ≠ Json.str "approved" ∧ Json.str "press" ≠ Json.str "declined" ∧
    process_transaction outputs_c5 example_transaction_realtime = Except.ok
      { transaction := example_transaction_realtime, ml_assessment := suspicious_ml,
        rule_assessment := flagged_rule, final_decision := some (Json.str "press"),
        explanation := some (Json.str "unklar"), error := none,
        process_complete := true } :=
  ⟨by simp, by simp, rfl⟩

/-- C5 amended: the decision field of the decision reply is propagated
verbatim as the final decision with `process_complete = true`, whatever its
value, outcomes outside the enumerated set included; no `DecisionParseError`
exists, and an unparseable decision reply or a missing key raises an
exception instead. -/
theorem C5_amended_outcome_propagated_verbatim
    (o : CollaboratorOutputs) (t : Transaction) (ml rule decision dec reasoning : Json)
    (hml : o.ml_content = some ml) (hrule : o.rule_content = some rule)
    (hcoord : py_strip o.coordinator_content = "decision_agent")
    (hd : o.decision_content = some decision)
    (hdec : decision.lookup "decision" = some dec)
    (hne : dec ≠ Json.str "approved" ∧ dec ≠ Json.str "declined")
    (hreas : decision.lookup "reasoning" = some reasoning) :
    process_transaction o t = Except.ok
      { transaction := t, ml_assessment := ml, rule_assessment := rule,
        final_decision := some dec, explanation := some reasoning,
        error := none, process_complete := true } := by
  unfold process_transaction
  rw [hml, hrule]
  simp [hcoord, hd, hdec, hreas]

/-- Witness for C5 amended at the out-of-range outcome `press`. -/
theorem C5_witness :
    process_transaction outputs_c5 example_transaction_realtime = Except.ok
      { transaction := example_transaction_realtime, ml_assessment := suspicious_ml,
        rule_assessment := flagged_rule, final_decision := some (Json.str "press"),
        explanation := some (Json.str "unklar"), error := none,
        process_complete := true } :=
  C5_amended_outcome_propagated_verbatim outputs_c5 example_transaction_realtime
    suspicious_ml flagged_rule weird_decision (Json.str "press") (Json.str "unklar")
    rfl rfl rfl rfl rfl ⟨by simp, by simp⟩ rfl

/-- C6 fails on the code: an ML reply that is not valid JSON makes
`process_transaction` raise the decode error past the orchestrator boundary
(`Except.error`), so the caller receives no ProcessResult-shaped object and
cannot inspect `process_complete`. -/
theorem C6_counterexample :
    process_transaction outputs_c6 example_transaction_realtime =
      Except.error (PyError.jsonDecodeError "ml_assessment_agent") := rfl

/-- C6 amended: only the unexpected-coordinator-answer fallback returns an
error-shaped result object (carrying the error message and
`process_complete = false`); `json.loads` failures on collaborator replies and
missing decision keys escape `process_transaction` as exceptions. -/
theorem C6_amended_only_fallback_returns_error_object
    (o : CollaboratorOutputs) (t : Transaction) (ml rule : Json)
    (hml : o.ml_content = some ml) (hrule : o.rule_content = some rule)
    (h1 : py_strip o.coordinator_content ≠ "approve_transaction")
    (h2 : py_strip o.coordinator_content ≠ "decision_agent")
    (h3 : py_strip o.coordinator_content ≠ "generate_explanation") :
    process_transaction o t = Except.ok
      { transaction := t, ml_assessment := ml, rule_assessment := rule,
        final_decision := none, explanation := none,
        error := some ("Unerwartete Koordinator-Antwort: " ++ py_strip o.coordinator_content),
        process_complete := false } := by
  unfold process_transaction
  rw [hml, hrule]
  simp [h1, h2, h3]

/-- Witness for C6 amended at the unexpected coordinator answer `foo`. -/
theorem C6_witness :
    process_transaction outputs_c6a example_transaction_realtime = Except.ok
      { transaction := example_transaction_realtime, ml_assessment := suspicious_ml,
        rule_assessment := flagged_rule, final_decision := none, explanation := none,
        error := some "Unerwartete Koordinator-Antwort: foo",
        process_complete := false } :=
  C6_amended_only_fallback_returns_error_object outputs_c6a example_transaction_realtime
    suspicious_ml flagged_rule rfl rfl (by decide) (by decide) (by decide)

/-- C7: in the `generate_explanation` branch the returned result has
`process_complete = true` exactly when the review chat scan produced a closed
verdict (approved or declined), and when the scan yields no verdict the result
is `final_decision = "undecided"` with `process_complete = false`. -/
theorem C7_explanation_branch_completeness
    (o : CollaboratorOutputs) (t : Transaction) (ml rule : Json) (r : ProcessResult)
    (hml : o.ml_content = some ml) (hrule : o.rule_content = some rule)
    (hcoord : py_strip o.coordinator_content = "generate_explanation")
    (hr : process_transaction o t = Except.ok r) :
    (r.process_complete = true ↔
      (r.final_decision = some (Json.str "approved") ∨
        r.final_decision = some (Json.str "declined"))) ∧
    (extract_final_decision o.review_history = "undecided" →
      r.final_decision = some (Json.str "undecided") ∧ r.process_complete = false) := by
  unfold process_transaction at hr
  rw [hml, hrule] at hr
  simp [hcoord] at hr
  subst hr
  rcases extract_final_decision_mem o.review_history with h | h | h <;> simp [h]

/-- Witness for C7 at a review chat holding no verdict keyword. -/
theorem C7_witness :
    (result_c7.process_complete = true ↔
      (result_c7.final_decision = some (Json.str "approved") ∨
        result_c7.final_decision = some (Json.str "declined"))) ∧
    (extract_final_decision outputs_c7.review_history = "undecided" →
      result_c7.final_decision = some (Json.str "undecided") ∧
        result_c7.process_complete = false) :=
  C7_explanation_branch_completeness outputs_c7 example_transaction_manual suspicious_ml
    flagged_rule result_c7 rfl rfl rfl rfl

end FraudDetection
